import Mathlib

/-!
Shallow embedding of the Weather-Forecast application (`src/script.js`).

Modelling conventions:
* A JavaScript `Date` value is abstracted as a `DateTime` record carrying the
  observable quantities the program extracts from it: its epoch value (used by
  the `>` comparison in `renderHourly`), the `YYYY-MM-DD` date portion of the
  ISO string it was parsed from (used by `t.startsWith(targetDate)`), the
  result of `getHours()`, and the two `toLocaleDateString` rendering variants
  the program requests (with and without the time component).  `new Date()`
  (the wall clock) is passed explicitly as a `now : DateTime` argument.
* JavaScript numbers are modelled as `Rat`; `Math.round` is `jsRound`
  (round half towards positive infinity, i.e. `floor (x + 1/2)`).
* JavaScript array indexing (which yields `undefined` out of range) is
  modelled with a default element (`jsGet` / `jsGetI`); the payload arrays of
  one fetch are sibling arrays of equal length, so the default is never hit on
  the in-range indices the claims quantify over.
* `String.prototype.trim` is modelled by `jsTrim` (drop leading and trailing
  whitespace), and the truthiness test `a.city || a.town || ...` on optional
  string fields by `jsOrElse` (absent or empty string falls through).
* The DOM-mutating renderers are embedded as pure functions producing a
  `RenderModel` / `HourCard` list, and the async handlers as functions from
  their inputs (the geocoding response, the fetch response) to a list of
  `Effect`s applied to an `AppState`.
-/

/-- Abstract state of a JavaScript `Date` value. -/
structure DateTime where
  epoch : Int
  dateStr : String
  hour : Nat
  localeFull : String
  localeDay : String
deriving DecidableEq, Inhabited

/-- JS `String.prototype.trim`: strip leading and trailing whitespace. -/
def jsTrim (s : String) : String :=
  ⟨((s.data.dropWhile Char.isWhitespace).reverse.dropWhile Char.isWhitespace).reverse⟩

/-- JS `Math.round`: round half up, i.e. `floor (x + 1/2)`, computed on the
numerator/denominator so that it evaluates by kernel reduction. -/
def jsRound (x : Rat) : Int := Int.fdiv (2 * x.num + (x.den : Int)) (2 * (x.den : Int))

/-- JS array indexing with a `Nat` index (out of range gives the default). -/
def jsGet [Inhabited α] (l : List α) (i : Nat) : α := l.getD i default

/-- JS array indexing with an `Int` index (negative or out of range gives the
default). -/
def jsGetI [Inhabited α] (l : List α) (i : Int) : α :=
  if i < 0 then default else jsGet l i.toNat

/-- JS `a || b` on an optional string field: absent or empty string is falsy. -/
def jsOrElse (a : Option String) (b : String) : String :=
  match a with
  | some s => if s = "" then b else s
  | none => b

/-- `data.current` of the Open-Meteo payload. `is_day` is the truthiness of
the 0/1 flag. -/
structure CurrentData where
  temperature_2m : Rat
  relative_humidity_2m : Rat
  apparent_temperature : Rat
  is_day : Bool
  precipitation : Rat
  weather_code : Nat
  wind_speed_10m : Rat
deriving DecidableEq, Inhabited

/-- `data.hourly`: sibling arrays indexed by hour slot. -/
structure HourlyData where
  time : List DateTime
  temperature_2m : List Rat
  weather_code : List Nat
deriving DecidableEq, Inhabited

/-- `data.daily`: sibling arrays indexed by day. -/
structure DailyData where
  time : List DateTime
  weather_code : List Nat
  temperature_2m_max : List Rat
  temperature_2m_min : List Rat
  uv_index_max : List Rat
  precipitation_probability_max : List Rat
  wind_speed_10m_max : List Rat
deriving DecidableEq, Inhabited

/-- The raw forecast response body of `getWeather`'s fetch. -/
structure RawForecast where
  current : CurrentData
  hourly : HourlyData
  daily : DailyData
deriving DecidableEq, Inhabited

/-- The stored payload `weatherData = { ...data, cityName }`. -/
structure WeatherData where
  current : CurrentData
  hourly : HourlyData
  daily : DailyData
  cityName : String
deriving DecidableEq, Inhabited

/-- `weatherData = { ...data, cityName }` (spread plus the resolved name). -/
def attachCity (d : RawForecast) (cityName : String) : WeatherData :=
  { current := d.current, hourly := d.hourly, daily := d.daily, cityName := cityName }

/-- Result record of `parseWeather`. -/
structure WeatherMeta where
  label : String
  icon : String
  theme : String
deriving DecidableEq, Inhabited

/-- `parseWeather(code, isDay)` (script.js lines 260-269): the ordered,
first-match-wins weather-code classifier. -/
def parseWeather (code : Nat) (isDay : Bool) : WeatherMeta :=
  let b := if isDay then "d" else "n"
  if code = 0 then
    { label := "Clear Sky", icon := "https://openweathermap.org/img/wn/01" ++ b ++ "@4x.png",
      theme := if isDay then "clear" else "night" }
  else if code ≤ 3 then
    { label := "Partly Cloudy", icon := "https://openweathermap.org/img/wn/02" ++ b ++ "@4x.png",
      theme := "cloudy" }
  else if 45 ≤ code ∧ code ≤ 48 then
    { label := "Foggy", icon := "https://openweathermap.org/img/wn/50" ++ b ++ "@4x.png",
      theme := "cloudy" }
  else if 51 ≤ code ∧ code ≤ 67 then
    { label := "Rain", icon := "https://openweathermap.org/img/wn/10" ++ b ++ "@4x.png",
      theme := "rain" }
  else if 71 ≤ code ∧ code ≤ 86 then
    { label := "Snowfall", icon := "https://openweathermap.org/img/wn/13" ++ b ++ "@4x.png",
      theme := "cloudy" }
  else if 95 ≤ code then
    { label := "Thunderstorm", icon := "https://openweathermap.org/img/wn/11" ++ b ++ "@4x.png",
      theme := "rain" }
  else
    { label := "Cloudy", icon := "https://openweathermap.org/img/wn/03" ++ b ++ "@4x.png",
      theme := "cloudy" }

/-- The hourly clock label (script.js line 198):
`h === 0 ? '12 AM' : h > 12 ? (h - 12) + ' PM' : h + ' AM'`. -/
def hourLabel (h : Nat) : String :=
  if h = 0 then "12 AM" else if h > 12 then toString (h - 12) ++ " PM" else toString h ++ " AM"

/-- One rendered hour card of `renderHourly`. -/
structure HourCard where
  timeLabel : String
  icon : String
  temp : Int
deriving DecidableEq, Inhabited

/-- JS `findIndex` followed by the `if (startIdx === -1) startIdx = 0`
fallback of script.js lines 184-185 and 189-190. -/
def findIndexOr0 (p : α → Bool) (l : List α) : Nat :=
  match l.findIdx? p with
  | some i => i
  | none => 0

/-- The start index of the hourly window (script.js lines 179-191):
for the current view (`dayIndex === -1`), the first hourly timestamp strictly
after `now` (JS `findIndex` returning -1 falls back to 0); for a day view,
the first hourly timestamp whose ISO string starts with the selected day's
`YYYY-MM-DD` date (the hourly ISO string starts with the daily date string
exactly when its date portion equals it). -/
def hourlyStartIdx (hourly : HourlyData) (dayIndex : Int) (now : DateTime)
    (daily : DailyData) : Nat :=
  if dayIndex = -1 then
    findIndexOr0 (fun t => decide (now.epoch < t.epoch)) hourly.time
  else
    findIndexOr0 (fun t => t.dateStr == (jsGetI daily.time dayIndex).dateStr) hourly.time

/-- The hour card built for loop index `i` and entry `t` (script.js
lines 196-212): the daytime flag of the per-hour icon is `h > 6 && h < 19`,
and the label is overridden to "Now" for the first card of the current view. -/
def hourCard (hourly : HourlyData) (dayIndex : Int) (startIdx i : Nat)
    (t : DateTime) : HourCard :=
  let h := t.hour
  let m := parseWeather (jsGet hourly.weather_code i) (decide (6 < h ∧ h < 19))
  { timeLabel := if dayIndex = -1 ∧ i = startIdx then "Now" else hourLabel h
    icon := m.icon
    temp := jsRound (jsGet hourly.temperature_2m i) }

/-- The loop of `renderHourly` (script.js lines 194-222): at most `fuel`
iterations starting at index `i`, breaking at the first missing entry
(`if (!hourly.time[i]) break`). -/
def hourCardsAux (hourly : HourlyData) (dayIndex : Int) (startIdx : Nat) :
    Nat → Nat → List HourCard
  | _, 0 => []
  | i, fuel+1 =>
    match hourly.time[i]? with
    | none => []
    | some t => hourCard hourly dayIndex startIdx i t ::
        hourCardsAux hourly dayIndex startIdx (i+1) fuel

/-- `renderHourly(hourly, dayIndex, daily)` (script.js lines 175-223) as the
list of hour cards it appends, with the wall clock passed explicitly. -/
def renderHourly (hourly : HourlyData) (dayIndex : Int) (daily : DailyData)
    (now : DateTime) : List HourCard :=
  hourCardsAux hourly dayIndex (hourlyStartIdx hourly dayIndex now daily)
    (hourlyStartIdx hourly dayIndex now daily) 24

/-- Every display field written by `renderMainView` (plus the hourly strip it
re-renders). -/
structure RenderModel where
  cityName : String
  dateString : String
  conditionLabel : String
  tempDisplay : String
  degVisible : Bool
  icon : String
  precip : String
  humidity : String
  wind : String
  uv : String
  theme : String
  hourly : List HourCard
deriving DecidableEq, Inhabited

/-- `renderMainView(data, index)` (script.js lines 114-173) as a pure
projection; `index = -1` is the current view, `index ≥ 0` a daily view.
`new Date()` is the explicit `now` argument. -/
def renderMainView (data : WeatherData) (index : Int) (now : DateTime) : RenderModel :=
  if index = -1 then
    let cur := data.current
    let meta := parseWeather cur.weather_code cur.is_day
    { cityName := data.cityName
      dateString := now.localeFull
      conditionLabel := meta.label
      tempDisplay := toString (jsRound cur.temperature_2m)
      degVisible := true
      icon := meta.icon
      precip := toString cur.precipitation ++ " mm"
      humidity := toString cur.relative_humidity_2m ++ "%"
      wind := toString (jsRound cur.wind_speed_10m) ++ " km/h"
      uv := toString (jsGet data.daily.uv_index_max 0)
      theme := "theme-" ++ meta.theme
      hourly := renderHourly data.hourly index data.daily now }
  else
    let day := data.daily
    let meta := parseWeather (jsGetI day.weather_code index) true
    { cityName := data.cityName
      dateString := (jsGetI day.time index).localeDay
      conditionLabel := meta.label
      tempDisplay := "<span style=\"font-size: 0.6em\">"
        ++ toString (jsRound (jsGetI day.temperature_2m_max index)) ++ "° / "
        ++ toString (jsRound (jsGetI day.temperature_2m_min index)) ++ "</span>"
      degVisible := false
      icon := meta.icon
      precip := toString (jsGetI day.precipitation_probability_max index) ++ "%"
      humidity := "--"
      wind := toString (jsRound (jsGetI day.wind_speed_10m_max index)) ++ " km/h"
      uv := toString (jsGetI day.uv_index_max index)
      theme := "theme-" ++ meta.theme
      hourly := renderHourly data.hourly index data.daily now }

/-- `address` object of a geocoding result. -/
structure GeoAddress where
  city : Option String
  town : Option String
  village : Option String
  county : Option String
  postcode : Option String
deriving DecidableEq, Inhabited

/-- One element of the forward-geocoding result array. -/
structure GeoResult where
  lat : String
  lon : String
  address : GeoAddress
deriving DecidableEq, Inhabited

/-- Outcome of the forward-geocoding fetch: a result array, or a network or
parse failure (the `catch` branch). -/
inductive GeoResponse where
  | ok (results : List GeoResult)
  | connectionError
deriving DecidableEq

/-- The observable effects of the manual-search handler: status messages via
`setLoadingState`, and forecast fetches via `getWeather`. -/
inductive Effect where
  | setStatus (msg : String)
  | fetchWeather (lat : String) (lon : String) (cityName : String)
deriving DecidableEq

/-- Whether an effect is a forecast fetch. -/
def isFetchEffect : Effect → Bool
  | .fetchWeather _ _ _ => true
  | .setStatus _ => false

/-- Display-name construction of `handleManualSearch` (script.js lines 59-62):
`address.city || address.town || address.village || address.county ||
"Unknown Location"`, plus `", <postcode>"` when a postcode is present. -/
def searchDisplayName (a : GeoAddress) : String :=
  let base := jsOrElse a.city (jsOrElse a.town (jsOrElse a.village
    (jsOrElse a.county "Unknown Location")))
  match a.postcode with
  | some p => if p = "" then base else base ++ ", " ++ p
  | none => base

/-- `handleManualSearch` (script.js lines 45-71) as a function from the input
field's value and the geocoding response to the effect list it performs. -/
def handleManualSearch (inputValue : String) (geo : GeoResponse) : List Effect :=
  let val := jsTrim inputValue
  if val = "" then []
  else
    Effect.setStatus ("Searching for " ++ val ++ "...") ::
      match geo with
      | .connectionError => [Effect.setStatus "Search connection error."]
      | .ok [] => [Effect.setStatus "City not found."]
      | .ok (r :: _) => [Effect.fetchWeather r.lat r.lon (searchDisplayName r.address)]

/-- The mutable page state the handlers touch: the stored payload
`weatherData`, the status indicator, the app container visibility, and the
currently displayed main view. -/
structure AppState where
  weatherData : Option WeatherData
  statusMsg : String
  statusVisible : Bool
  appVisible : Bool
  view : Option RenderModel
deriving DecidableEq, Inhabited

/-- `setLoadingState(msg)` (script.js lines 271-280). -/
def setLoadingState (msg : String) (st : AppState) : AppState :=
  { st with statusMsg := msg, statusVisible := true, appVisible := false }

/-- `populateUI(data)` (script.js lines 87-107): hide the status indicator,
show the app, and render the current view (which also renders the hourly
strip). -/
def populateUI (d : WeatherData) (now : DateTime) (st : AppState) : AppState :=
  { st with
    statusVisible := false
    appVisible := true
    view := some (renderMainView d (-1) now) }

/-- `getWeather(lat, lon, cityName)` (script.js lines 73-85) with the fetch
outcome `net` passed explicitly: on success store `{ ...data, cityName }` and
populate the UI; on failure show a status message and leave the stored
payload alone. -/
def getWeather (net : Option RawForecast) (cityName : String) (now : DateTime)
    (st : AppState) : AppState :=
  match net with
  | some d =>
    let wd := attachCity d cityName
    populateUI wd now { st with weatherData := some wd }
  | none => setLoadingState "Weather data unavailable." st

/-- Apply one effect of the manual-search handler to the page state. -/
def runEffect (net : Option RawForecast) (now : DateTime) (st : AppState) :
    Effect → AppState
  | .setStatus msg => setLoadingState msg st
  | .fetchWeather _ _ name => getWeather net name now st

/-- Apply the handler's effects in order. -/
def runEffects (net : Option RawForecast) (now : DateTime) (st : AppState)
    (effs : List Effect) : AppState :=
  effs.foldl (runEffect net now) st

/-- Modelled from the spec: the ordered first-match-wins bucket table of
claim C2 (code 0 → "Clear Sky" with theme clear/night by daytime flag; 1-3 →
"Partly Cloudy"/cloudy; 45-48 → "Foggy"/cloudy; 51-67 → "Rain"/rain
independent of the flag; 71-86 → "Snowfall"/cloudy; ≥95 →
"Thunderstorm"/rain; every remaining code → fallback "Cloudy"/cloudy),
written down from the claim's own words to be compared with the source's
`parseWeather`. Returns the (label, theme) pair of the unique bucket. -/
def specBucketTable (code : Nat) (d : Bool) : String × String :=
  if code = 0 then ("Clear Sky", if d then "clear" else "night")
  else if 1 ≤ code ∧ code ≤ 3 then ("Partly Cloudy", "cloudy")
  else if 45 ≤ code ∧ code ≤ 48 then ("Foggy", "cloudy")
  else if 51 ≤ code ∧ code ≤ 67 then ("Rain", "rain")
  else if 71 ≤ code ∧ code ≤ 86 then ("Snowfall", "cloudy")
  else if 95 ≤ code then ("Thunderstorm", "rain")
  else ("Cloudy", "cloudy")

/-- A sample current-conditions record (used to instantiate the general
theorems on concrete inputs). -/
def sampleCurrent : CurrentData where
  temperature_2m := 4
  relative_humidity_2m := 50
  apparent_temperature := 3
  is_day := true
  precipitation := 0
  weather_code := 0
  wind_speed_10m := 7

/-- A sample hourly series with two entries, at 01:00 and 02:00 of
2024-01-01 (epochs 3600 and 7200). -/
def sampleHourly : HourlyData where
  time := [⟨3600, "2024-01-01", 1, "Monday, January 1, 1:00 AM", "Monday, January 1"⟩,
           ⟨7200, "2024-01-01", 2, "Monday, January 1, 2:00 AM", "Monday, January 1"⟩]
  temperature_2m := [5, 6]
  weather_code := [0, 0]

/-- A sample daily series with a single day, 2024-01-01. -/
def sampleDaily : DailyData where
  time := [⟨0, "2024-01-01", 0, "Monday, January 1, 12:00 AM", "Monday, January 1"⟩]
  weather_code := [0]
  temperature_2m_max := [8]
  temperature_2m_min := [2]
  uv_index_max := [3]
  precipitation_probability_max := [0]
  wind_speed_10m_max := [10]

/-- The sample stored payload. -/
def sampleData : WeatherData where
  current := sampleCurrent
  hourly := sampleHourly
  daily := sampleDaily
  cityName := "Sampletown"

/-- A wall-clock reading at epoch 0 (before both sample hourly entries). -/
def nowBefore : DateTime := ⟨0, "2024-01-01", 0, "early clock reading", "Monday, January 1"⟩

/-- A wall-clock reading at epoch 9000 (after both sample hourly entries). -/
def nowAfter : DateTime := ⟨9000, "2024-01-01", 2, "late clock reading", "Monday, January 1"⟩

/-- An initial page state with no stored payload. -/
def initialState : AppState where
  weatherData := none
  statusMsg := ""
  statusVisible := true
  appVisible := false
  view := none

/-! ### Helper lemmas -/

/-- A string of length zero is the empty string. -/
theorem eq_empty_of_length_zero (s : String) (h : s.length = 0) : s = "" := by
  cases s with
  | mk data =>
    cases data with
    | nil => rfl
    | cons a l => simp [String.length] at h

/-- The clock label is never the literal "Now": the override in the current
view is the only way "Now" can appear. -/
theorem hourLabel_ne_now (h : Nat) : hourLabel h ≠ "Now" := by
  unfold hourLabel
  split
  · decide
  split
  · intro hc
    have hlen := congrArg String.length hc
    rw [String.length_append] at hlen
    have h1 : (" PM" : String).length = 3 := rfl
    have h2 : ("Now" : String).length = 3 := rfl
    have h0 : (toString (h - 12)).length = 0 := by omega
    rw [eq_empty_of_length_zero _ h0] at hc
    exact absurd hc (by decide)
  · intro hc
    have hlen := congrArg String.length hc
    rw [String.length_append] at hlen
    have h1 : (" AM" : String).length = 3 := rfl
    have h2 : ("Now" : String).length = 3 := rfl
    have h0 : (toString h).length = 0 := by omega
    rw [eq_empty_of_length_zero _ h0] at hc
    exact absurd hc (by decide)

/-- JS indexing with a valid nonnegative index is plain list indexing. -/
theorem jsGetI_eq_get [Inhabited α] (l : List α) (i : Nat) (h : i < l.length) :
    jsGetI l (i : Int) = l.get ⟨i, h⟩ := by
  have h0 : ¬((i : Int) < 0) := by omega
  rw [jsGetI, if_neg h0]
  simp [jsGet, List.getElem?_eq_getElem h]

/-! ### C1 -/

/-- C1: evaluation of the clock-label rule at the boundary hours. Hour 0
yields "12 AM", hours 1-11 yield "h AM", hour 13 yields "1 PM", hour 23
yields "11 PM", and afternoon hours 13-23 yield "(h-12) PM"; but hour 12
(noon) yields "12 AM", not the "12 PM" the 12-hour boundary rule requires:
the `h > 12` guard misclassifies noon into the AM branch. -/
theorem c1_hourLabel_boundary_eval :
    hourLabel 0 = "12 AM"
    ∧ hourLabel 12 = "12 AM"
    ∧ hourLabel 12 ≠ "12 PM"
    ∧ hourLabel 13 = "1 PM"
    ∧ hourLabel 23 = "11 PM"
    ∧ (∀ h, h ≤ 11 → 1 ≤ h → hourLabel h = toString h ++ " AM")
    ∧ (∀ h, h ≤ 23 → 13 ≤ h → hourLabel h = toString (h - 12) ++ " PM") := by
  decide

/-! ### C2 -/

/-- C2: for every weather code in [0,99] and both daytime flags, the
classifier agrees with the ordered first-match-wins bucket table of the
claim (in particular code 0 is "Clear Sky" with theme by daytime, 51-67 is
"Rain"/rain independent of the flag, and every code not in a listed range —
such as 40 — falls back to "Cloudy"/cloudy), and every code lands in
exactly one of the seven buckets: no code is unclassified. -/
theorem c2_classifier_total (code : Nat) (hc : code < 100) (d : Bool) :
    (parseWeather code d).label = (specBucketTable code d).1
    ∧ (parseWeather code d).theme = (specBucketTable code d).2
    ∧ (parseWeather code d).label ∈
        ["Clear Sky", "Partly Cloudy", "Foggy", "Rain", "Snowfall", "Thunderstorm", "Cloudy"] := by
  revert d
  revert hc
  revert code
  decide

/-- Witness for C2 at the gap code 40 with the day flag. -/
theorem c2_classifier_total_witness :
    40 < 100
    ∧ ((parseWeather 40 true).label = (specBucketTable 40 true).1
      ∧ (parseWeather 40 true).theme = (specBucketTable 40 true).2
      ∧ (parseWeather 40 true).label ∈
          ["Clear Sky", "Partly Cloudy", "Foggy", "Rain", "Snowfall", "Thunderstorm", "Cloudy"]) :=
  ⟨by decide, c2_classifier_total 40 (by decide) true⟩

/-! ### C9 -/

/-- C9: weather code 50 (omitted from the spec's fallback gap list) is
classified as the fallback bucket "Cloudy" with theme "cloudy" for both
daytime flags — neither "Foggy" nor "Rain". -/
theorem c9_code50_fallback :
    (∀ d : Bool, (parseWeather 50 d).label = "Cloudy" ∧ (parseWeather 50 d).theme = "cloudy")
    ∧ (∀ d : Bool, (parseWeather 50 d).label ≠ "Foggy")
    ∧ (∀ d : Bool, (parseWeather 50 d).label ≠ "Rain") := by
  decide

/-! ### C8 -/

/-- C8: for every payload, every day index and every wall-clock value, the
daily view renders the humidity field as the literal placeholder "--". -/
theorem c8_daily_humidity_placeholder (data : WeatherData) (i : Nat) (now : DateTime) :
    (renderMainView data (i : Int) now).humidity = "--" := by
  have hne : ¬((i : Int) = -1) := by omega
  simp only [renderMainView, if_neg hne]

/-! ### C3 -/

/-- C3 counterexample: with the same payload and the same slot (`Current`)
but two wall-clock readings, the projection differs — the current view's
date string and the hourly window start are read from `new Date()`, an
input not passed as an argument. The claim's clock-independence is false. -/
theorem c3_counterexample :
    renderMainView sampleData (-1) nowBefore ≠ renderMainView sampleData (-1) nowAfter := by
  decide

/-- C3 (amended): the projection is a pure function of payload, slot and the
wall-clock reading, and for every `Day(i)` slot the projection does not
depend on the wall clock at all: two invocations with identical payload and
identical day slot but arbitrary distinct clock readings produce an
identical `RenderModel`. (Only the `Current` slot reads the clock, for its
date string and its hourly window start.) -/
theorem c3_day_view_clock_independent (data : WeatherData) (i : Nat) (n n' : DateTime) :
    renderMainView data (i : Int) n = renderMainView data (i : Int) n' := by
  have hne : ¬((i : Int) = -1) := by omega
  simp only [renderMainView, if_neg hne, renderHourly, hourlyStartIdx]

/-! ### C10 -/

/-- C10: a search input that is empty or all-whitespace makes the handler
return immediately: no effect is performed (no geocoding consumed, no status
message set) and the page state — stored payload and displayed view
included — is completely unchanged. -/
theorem c10_blank_input_noop (input : String) (h : jsTrim input = "")
    (geo : GeoResponse) (net : Option RawForecast) (now : DateTime) (st : AppState) :
    handleManualSearch input geo = []
    ∧ runEffects net now st (handleManualSearch input geo) = st := by
  simp [handleManualSearch, h, runEffects]

/-- Witness for C10 on the three-space input. -/
theorem c10_blank_input_noop_witness :
    jsTrim "   " = ""
    ∧ (handleManualSearch "   " (GeoResponse.ok []) = []
      ∧ runEffects none nowBefore initialState
          (handleManualSearch "   " (GeoResponse.ok [])) = initialState) :=
  ⟨by decide, c10_blank_input_noop "   " (by decide) (GeoResponse.ok []) none nowBefore initialState⟩

/-! ### C7 -/

/-- C7: a manual search whose geocoding response has zero results performs
no forecast fetch, leaves the stored payload and the displayed view
unchanged, and ends with the "City not found." status message. -/
theorem c7_zero_results_not_found (input : String) (h : jsTrim input ≠ "")
    (net : Option RawForecast) (now : DateTime) (st : AppState) :
    (∀ e ∈ handleManualSearch input (GeoResponse.ok []), isFetchEffect e = false)
    ∧ (runEffects net now st (handleManualSearch input (GeoResponse.ok []))).statusMsg
        = "City not found."
    ∧ (runEffects net now st (handleManualSearch input (GeoResponse.ok []))).weatherData
        = st.weatherData
    ∧ (runEffects net now st (handleManualSearch input (GeoResponse.ok []))).view = st.view := by
  simp [handleManualSearch, h, runEffects, runEffect, setLoadingState, isFetchEffect]

/-- Witness for C7 on the query "Nowhereville". -/
theorem c7_zero_results_not_found_witness :
    jsTrim "Nowhereville" ≠ ""
    ∧ ((∀ e ∈ handleManualSearch "Nowhereville" (GeoResponse.ok []), isFetchEffect e = false)
      ∧ (runEffects none nowBefore initialState
          (handleManualSearch "Nowhereville" (GeoResponse.ok []))).statusMsg = "City not found."
      ∧ (runEffects none nowBefore initialState
          (handleManualSearch "Nowhereville" (GeoResponse.ok []))).weatherData
          = initialState.weatherData
      ∧ (runEffects none nowBefore initialState
          (handleManualSearch "Nowhereville" (GeoResponse.ok []))).view = initialState.view) :=
  ⟨by decide, c7_zero_results_not_found "Nowhereville" (by decide) none nowBefore initialState⟩

/-! ### findIndexOr0 lemmas -/

/-- The chosen index is at most any index satisfying the predicate. -/
theorem findIndexOr0_le (p : α → Bool) (l : List α) (j : Nat) (hj : j < l.length)
    (hp : p (l.get ⟨j, hj⟩) = true) : findIndexOr0 p l ≤ j := by
  unfold findIndexOr0
  cases hf : l.findIdx? p with
  | none =>
    have hnone := List.findIdx?_eq_none_iff.mp hf _ (List.get_mem l j hj)
    simp_all
  | some i =>
    rcases List.findIdx?_eq_some_iff_getElem.mp hf with ⟨hl, hpi, hmin⟩
    by_contra hc
    push_neg at hc
    have := hmin j hc
    simp_all [List.get_eq_getElem]

/-- When some index satisfies the predicate, the chosen index does. -/
theorem findIndexOr0_found (p : α → Bool) (l : List α)
    (hex : ∃ j, ∃ hj : j < l.length, p (l.get ⟨j, hj⟩) = true) :
    ∃ hs : findIndexOr0 p l < l.length, p (l.get ⟨findIndexOr0 p l, hs⟩) = true := by
  unfold findIndexOr0
  cases hf : l.findIdx? p with
  | none =>
    rcases hex with ⟨j, hj, hp⟩
    have hnone := List.findIdx?_eq_none_iff.mp hf _ (List.get_mem l j hj)
    simp_all
  | some i =>
    rcases List.findIdx?_eq_some_iff_getElem.mp hf with ⟨hl, hpi, hmin⟩
    exact ⟨hl, by simpa [List.get_eq_getElem] using hpi⟩

/-- When no index satisfies the predicate, the chosen index is 0. -/
theorem findIndexOr0_none (p : α → Bool) (l : List α)
    (hall : ∀ j, ∀ hj : j < l.length, p (l.get ⟨j, hj⟩) = false) :
    findIndexOr0 p l = 0 := by
  unfold findIndexOr0
  cases hf : l.findIdx? p with
  | none => rfl
  | some i =>
    rcases List.findIdx?_eq_some_iff_getElem.mp hf with ⟨hl, hpi, hmin⟩
    have := hall i hl
    simp_all [List.get_eq_getElem]

/-! ### hourCardsAux lemmas -/

/-- The loop renders `min fuel (length - i)` cards. -/
theorem hourCardsAux_length (hourly : HourlyData) (dayIndex : Int) (startIdx : Nat) :
    ∀ (fuel i : Nat), (hourCardsAux hourly dayIndex startIdx i fuel).length
      = min fuel (hourly.time.length - i)
  | 0, i => by simp [hourCardsAux]
  | fuel+1, i => by
    cases hts : hourly.time[i]? with
    | none =>
      have hlen : hourly.time.length ≤ i := List.getElem?_eq_none_iff.mp hts
      simp only [hourCardsAux, hts, List.length_nil]
      omega
    | some t =>
      have hlen : i < hourly.time.length := by
        rcases List.getElem?_eq_some_iff.mp hts with ⟨hl, _⟩
        exact hl
      have ih := hourCardsAux_length hourly dayIndex startIdx fuel (i+1)
      simp only [hourCardsAux, hts, List.length_cons, ih]
      omega

/-- Outside the current view, no rendered card carries the label "Now". -/
theorem hourCardsAux_no_now (hourly : HourlyData) (dayIndex : Int) (s : Nat)
    (hd : ¬(dayIndex = -1)) :
    ∀ (fuel i : Nat), ∀ c ∈ hourCardsAux hourly dayIndex s i fuel, c.timeLabel ≠ "Now"
  | 0, i => by simp [hourCardsAux]
  | fuel+1, i => by
    cases hts : hourly.time[i]? with
    | none => simp [hourCardsAux, hts]
    | some t =>
      intro c hc
      simp only [hourCardsAux, hts, List.mem_cons] at hc
      rcases hc with rfl | hc
      · have hlab : (hourCard hourly dayIndex s i t).timeLabel = hourLabel t.hour := by
          simp [hourCard, hd]
        rw [hlab]
        exact hourLabel_ne_now t.hour
      · exact hourCardsAux_no_now hourly dayIndex s hd fuel (i+1) c hc

/-! ### C4 -/

/-- C4: the hourly window never renders more than 24 cards; its length is
exactly `min 24 (remaining entries)`, so when fewer than 24 entries remain
from the start index the loop stops early (the break on a missing entry),
rendering exactly the entries that exist — and never accessing an index at
or beyond the series length. -/
theorem c4_hourly_window_safe (hourly : HourlyData) (dayIndex : Int)
    (daily : DailyData) (now : DateTime) :
    (renderHourly hourly dayIndex daily now).length
      = min 24 (hourly.time.length - hourlyStartIdx hourly dayIndex now daily)
    ∧ (renderHourly hourly dayIndex daily now).length ≤ 24
    ∧ (∀ k, k < (renderHourly hourly dayIndex daily now).length →
        hourlyStartIdx hourly dayIndex now daily + k < hourly.time.length) := by
  have h := hourCardsAux_length hourly dayIndex
    (hourlyStartIdx hourly dayIndex now daily) 24 (hourlyStartIdx hourly dayIndex now daily)
  rw [renderHourly]
  exact ⟨h, by omega, fun k hk => by omega⟩

/-! ### C5 -/

/-- C5: for the Current slot the hourly window starts at the first hourly
entry whose timestamp is strictly after the current time (the start index is
below any strictly-later entry and is itself strictly later when one
exists); when every timestamp is at or before now it starts at index 0; and
the first rendered card is labelled "Now" instead of its clock time. -/
theorem c5_current_window (hourly : HourlyData) (daily : DailyData) (now : DateTime) :
    (∀ j, ∀ hj : j < hourly.time.length,
        now.epoch < (hourly.time.get ⟨j, hj⟩).epoch →
        hourlyStartIdx hourly (-1) now daily ≤ j)
    ∧ ((∃ j, ∃ hj : j < hourly.time.length, now.epoch < (hourly.time.get ⟨j, hj⟩).epoch) →
        ∃ hs : hourlyStartIdx hourly (-1) now daily < hourly.time.length,
          now.epoch < (hourly.time.get ⟨hourlyStartIdx hourly (-1) now daily, hs⟩).epoch)
    ∧ ((∀ j, ∀ hj : j < hourly.time.length, (hourly.time.get ⟨j, hj⟩).epoch ≤ now.epoch) →
        hourlyStartIdx hourly (-1) now daily = 0)
    ∧ (∀ c cs, renderHourly hourly (-1) daily now = c :: cs → c.timeLabel = "Now") := by
  have hcur : hourlyStartIdx hourly (-1) now daily
      = findIndexOr0 (fun t => decide (now.epoch < t.epoch)) hourly.time := by
    simp [hourlyStartIdx]
  refine ⟨?_, ?_, ?_, ?_⟩
  · intro j hj hnow
    rw [hcur]
    exact findIndexOr0_le _ _ j hj (by simpa using hnow)
  · intro hex
    rcases hex with ⟨j, hj, hnow⟩
    rw [hcur]
    rcases findIndexOr0_found (fun t => decide (now.epoch < t.epoch)) hourly.time
      ⟨j, hj, by simpa using hnow⟩ with ⟨hs, hp⟩
    exact ⟨hs, by simpa using hp⟩
  · intro hall
    rw [hcur]
    exact findIndexOr0_none _ _ (fun j hj => by simpa using hall j hj)
  · intro c cs hcc
    simp only [renderHourly] at hcc
    rw [show (24 : Nat) = 23 + 1 from rfl] at hcc
    cases hts : hourly.time[hourlyStartIdx hourly (-1) now daily]? with
    | none => simp [hourCardsAux, hts] at hcc
    | some t =>
      simp only [hourCardsAux, hts] at hcc
      have hc1 : hourCard hourly (-1) (hourlyStartIdx hourly (-1) now daily)
          (hourlyStartIdx hourly (-1) now daily) t = c := (List.cons.injEq _ _ _ _).mp hcc |>.1
      rw [← hc1]
      simp [hourCard]

/-- Witness for C5, at the sample payload with the clock before both hourly
entries: the window then cannot start later than index 0. -/
theorem c5_current_window_witness :
    hourlyStartIdx sampleHourly (-1) nowBefore sampleDaily ≤ 0 :=
  (c5_current_window sampleHourly sampleDaily nowBefore).1 0 (by decide) (by decide)

/-! ### C6 -/

/-- C6: for a valid Day(i) slot the hourly window starts at the first hourly
entry whose date portion matches the selected day's date (the start index is
below any matching entry and itself matches when a match exists); when no
entry matches it starts at index 0; and no rendered card is relabelled
"Now". -/
theorem c6_day_window (hourly : HourlyData) (daily : DailyData) (now : DateTime)
    (i : Nat) (hi : i < daily.time.length) :
    (∀ j, ∀ hj : j < hourly.time.length,
        (hourly.time.get ⟨j, hj⟩).dateStr = (daily.time.get ⟨i, hi⟩).dateStr →
        hourlyStartIdx hourly (i : Int) now daily ≤ j)
    ∧ ((∃ j, ∃ hj : j < hourly.time.length,
          (hourly.time.get ⟨j, hj⟩).dateStr = (daily.time.get ⟨i, hi⟩).dateStr) →
        ∃ hs : hourlyStartIdx hourly (i : Int) now daily < hourly.time.length,
          (hourly.time.get ⟨hourlyStartIdx hourly (i : Int) now daily, hs⟩).dateStr
            = (daily.time.get ⟨i, hi⟩).dateStr)
    ∧ ((∀ j, ∀ hj : j < hourly.time.length,
          (hourly.time.get ⟨j, hj⟩).dateStr ≠ (daily.time.get ⟨i, hi⟩).dateStr) →
        hourlyStartIdx hourly (i : Int) now daily = 0)
    ∧ (∀ c ∈ renderHourly hourly (i : Int) daily now, c.timeLabel ≠ "Now") := by
  have hne : ¬((i : Int) = -1) := by omega
  have hday : hourlyStartIdx hourly (i : Int) now daily
      = findIndexOr0
          (fun t => t.dateStr == (daily.time.get ⟨i, hi⟩).dateStr) hourly.time := by
    simp [hourlyStartIdx, hne, jsGetI_eq_get daily.time i hi]
  refine ⟨?_, ?_, ?_, ?_⟩
  · intro j hj hmatch
    rw [hday]
    exact findIndexOr0_le _ _ j hj (by simpa using hmatch)
  · intro hex
    rcases hex with ⟨j, hj, hmatch⟩
    rw [hday]
    rcases findIndexOr0_found
      (fun t => t.dateStr == (daily.time.get ⟨i, hi⟩).dateStr) hourly.time
      ⟨j, hj, by simpa using hmatch⟩ with ⟨hs, hp⟩
    exact ⟨hs, by simpa using hp⟩
  · intro hall
    rw [hday]
    exact findIndexOr0_none _ _ (fun j hj => by simpa using hall j hj)
  · intro c hc
    exact hourCardsAux_no_now hourly (i : Int)
      (hourlyStartIdx hourly (i : Int) now daily) hne 24
      (hourlyStartIdx hourly (i : Int) now daily) c hc

/-- Witness for C6 at day 0 of the sample payload, whose date matches the
first hourly entry: the window start can only be index 0. -/
theorem c6_day_window_witness :
    hourlyStartIdx sampleHourly ((0 : Nat) : Int) nowBefore sampleDaily ≤ 0 :=
  (c6_day_window sampleHourly sampleDaily nowBefore 0 (by decide)).1 0 (by decide) (by decide)
